import Mathlib

/-!
# Verification of the menu / paginator / number-block core

A shallow embedding, in Lean 4, of the interactive-menu core of the
`wards-djs-addons` repository:

* `Paginator` (`src/factory/paginator.ts`): a cyclic cursor over parallel
  content arrays, loaded and validated by `loadPages`, advanced by
  `changePage`.
* `NumberBlockManager` and the row builders (`src/factory/components.ts`):
  a running numeric total updated by arithmetic operations encoded in
  hyphen-delimited activation ids.
* `MenuManager` (`src/factory/menu.ts`): a stack of display frames with
  per-position action-id tables (`next`/`back`/`cancel`), an id classifier,
  a pager registry, and stack transitions (`frameForward`, `frameBackward`,
  `frameRestart`, `framePageChange`, `frameRefresh`).

JavaScript idioms are embedded explicitly:

* thrown exceptions become `Except String`; since a JS method mutates `this`
  in place before it throws, every fallible operation returns the mutated
  state *alongside* the `Except` value, so post-failure states are observable;
* `undefined` becomes `Option.none` (array indexing out of range uses
  `List.get?` / `getLast?`, optional record fields use `Option`);
* `String.prototype.split` on `"-"` is `jsSplit '-'`, defined by recursion on
  the character list; `startsWith` and `includes` are defined likewise;
* JS `Number(...)` is only ever applied (by this code) to decimal digit
  strings; it is embedded as `jsNumberOf`, with `none` standing for `NaN`.
-/

namespace Wards

/-! ## JS string primitives -/

/-- Split a character list at every occurrence of `sep`.
Mirrors JS `String.prototype.split` with a single-character separator:
the result is never empty, and `[[]]` on the empty string. -/
def splitOnChar (sep : Char) : List Char → List (List Char)
  | [] => [[]]
  | c :: cs =>
    if c = sep then [] :: splitOnChar sep cs
    else
      match splitOnChar sep cs with
      | [] => [[c]]
      | p :: ps => (c :: p) :: ps

/-- JS `s.split(sep)` for a one-character separator. -/
def jsSplit (sep : Char) (s : String) : List String :=
  (splitOnChar sep s.data).map String.mk

/-- JS `s.startsWith(p)`. -/
def jsStartsWith (s p : String) : Bool :=
  decide (s.data.take p.data.length = p.data)

/-- JS `s.includes(c)` for a one-character needle. -/
def jsIncludesChar (s : String) (c : Char) : Bool :=
  s.data.contains c

/-- JS `Number(s)` restricted to the decimal digit strings this code feeds it
(`"1"`, `"10"`, …, `"10000"`); `none` stands for `NaN` on anything else. -/
def jsNumberOf (s : String) : Option Int :=
  if s.data ≠ [] ∧ s.data.all (·.isDigit) then
    some (Int.ofNat (s.data.foldl (fun acc c => acc * 10 + (c.toNat - 48)) 0))
  else none

/-! ## Discord component values

Only the attributes the source inspects are kept: the component type
(button / string-select), the button style, and the `custom_id`. -/

/-- The `ComponentType` enum restricted to the discriminations the source makes. -/
inductive CompType
  | button
  | stringSelect
  deriving DecidableEq, Repr

/-- The `ButtonStyle` enum. -/
inductive BStyle
  | primary
  | secondary
  | success
  | danger
  | premium
  | link
  deriving DecidableEq, Repr

/-- One interactive component (`APIMessageActionRowComponent`). -/
structure Comp where
  ctype : CompType
  style : BStyle
  custom_id : String
  deriving DecidableEq, Repr

/-- One action row (`APIActionRowComponent`). -/
structure ActionRow where
  components : List Comp
  deriving DecidableEq, Repr

/-- An opaque embed payload; only identity matters to the core. -/
structure Embed where
  eid : Nat
  deriving DecidableEq, Repr

/-- An opaque file attachment payload. -/
structure FileAttachment where
  fid : Nat
  deriving DecidableEq, Repr

/-! ## NumberBlockManager (`src/factory/components.ts`) -/

/-- The three `CallableSign` implementations (`Subtract`, `Multiply`,
`Addition`). -/
inductive CallableSign
  | subtractSign
  | multiplySign
  | additionSign
  deriving DecidableEq, Repr

/-- Method `CallableSign.applySign` on genuine numbers. -/
def CallableSign.applySign : CallableSign → Int → Int → Int
  | .subtractSign, t, n => t - n
  | .multiplySign, t, n => t * n
  | .additionSign, t, n => t + n

/-- The `applySign` operation lifted to the JS number domain (`none` = `NaN`): any
operation with `NaN` yields `NaN`. -/
def CallableSign.applySignJs : CallableSign → Option Int → Option Int → Option Int
  | op, some t, some n => some (op.applySign t n)
  | _, _, _ => none

/-- Registry `SignCaller.callers`: the sign registry built in the `SignCaller`
constructor. -/
def signCallers : String → Option CallableSign
  | "minus" => some .subtractSign
  | "mult" => some .multiplySign
  | "plus" => some .additionSign
  | _ => none

/-- The `NumberBlockOptions` record. -/
structure NumberBlockOptions where
  rows : Nat := 3
  controlId : String := "amount"
  deriving DecidableEq, Repr

/-- The `prefixes` constant of `spawnNumberBlockRows`. -/
def nbRowSignNames : List String := ["minus", "minus", "mult", "plus", "plus"]

/-- The `valuesTable` constant of `spawnNumberBlockRows`. -/
def nbValuesTable : List (List String) :=
  [["10", "1", "10", "1", "10"],
   ["100", "25", "100", "25", "100"],
   ["10k", "1k", "1k", "1k", "10k"]]

/-- The `styles` constant of `spawnNumberBlockRows`. -/
def nbStyles : List BStyle :=
  [.primary, .primary, .secondary, .primary, .primary]

/-- One grid row of `spawnNumberBlockRows`: buttons
`"<sign>-<value>-<controlId>"` for each column of the values row. -/
def nbGridRow (extension : String) (values : List String) : ActionRow :=
  { components :=
      (List.range values.length).map fun rowIdx =>
        { ctype := .button
          style := (nbStyles.get? rowIdx).getD .primary
          custom_id :=
            (nbRowSignNames.get? rowIdx).getD "" ++ "-" ++
              (values.get? rowIdx).getD "" ++ "-" ++ extension } }

/-- The control row of `spawnNumberBlockRows`: back / confirm / reset. -/
def nbControlRow (extension : String) : ActionRow :=
  { components :=
      [{ ctype := .button, style := .secondary, custom_id := "back-" ++ extension },
       { ctype := .button, style := .success, custom_id := "confirm-" ++ extension },
       { ctype := .button, style := .danger, custom_id := "reset-" ++ extension }] }

/-- Function `spawnNumberBlockRows`. The JS loop indexes `valuesTable[row]` for
`row < rows`, so `rows > 3` crashes on `undefined.length` (`none` here);
for `rows ≤ 3` the loop visits exactly the first `rows` value rows. -/
def spawnNumberBlockRows (options : NumberBlockOptions) : Option (List ActionRow) :=
  if options.rows ≤ 3 then
    some ((nbValuesTable.take options.rows).map (nbGridRow options.controlId)
      ++ [nbControlRow options.controlId])
  else none

/-- Predicate `isButtonWithId` (constructor-local helper): any button not styled
premium/link carries a usable `custom_id`. -/
def isButtonWithId (c : Comp) : Bool :=
  c.style ≠ .premium && c.style ≠ .link

/-- State of a `NumberBlockManager` instance. `activeNumberTotal` lives in the JS
number domain (`none` = `NaN`; never produced from the ids this class
builds). -/
structure NumberBlockManager where
  options : NumberBlockOptions
  activeBlockRows : List ActionRow
  activeBlockIds : List String
  activeNumberTotal : Option Int
  deriving DecidableEq, Repr

/-- The `NumberBlockManager` constructor; `none` when `spawnNumberBlockRows`
crashes (`rows > 3`). -/
def NumberBlockManager.create (options : NumberBlockOptions) : Option NumberBlockManager :=
  (spawnNumberBlockRows options).map fun rows =>
    { options := options
      activeBlockRows := rows
      activeBlockIds :=
        (rows.map fun row =>
          (row.components.filter isButtonWithId).map (·.custom_id)).flatten
      activeNumberTotal := some 0 }

/-- Helper `applyConversion` (local to `_handleEvaluation`): a `"k"` anywhere makes
the parse use the text before the first `"k"` with `"000"` appended. -/
def applyConversion (id : String) : Option Int :=
  jsNumberOf <|
    if jsIncludesChar id 'k' then String.mk (id.data.takeWhile (· ≠ 'k')) ++ "000"
    else id

/-- Method `NumberBlockManager._handleEvaluation`. The caller guarantees the sign
lookup succeeds (it only dispatches here for `minus`/`mult`/`plus`), so the
`none` arm of the registry lookup is unreachable. -/
def NumberBlockManager.handleEvaluation (m : NumberBlockManager) (fullId : String) :
    NumberBlockManager :=
  let splitId := jsSplit '-' fullId
  let modifyWith := applyConversion ((splitId.get? 1).getD "")
  match signCallers (splitId.headD "") with
  | some op =>
    { m with activeNumberTotal := op.applySignJs m.activeNumberTotal modifyWith }
  | none => m

/-- The early-return condition of `evaluate` on the split id: a mismatching
`controlId` segment. Out-of-range segment reads are JS `undefined`
(`none`), which never equals a string. -/
def controlMismatch (splitId : List String) (controlId : String) : Prop :=
  (splitId.headD "" ≠ "reset" ∧ splitId.get? 2 ≠ some controlId) ∨
  (splitId.headD "" = "reset" ∧ splitId.get? 1 ≠ some controlId)

instance (splitId : List String) (controlId : String) :
    Decidable (controlMismatch splitId controlId) := by
  unfold controlMismatch; infer_instance

/-- Method `NumberBlockManager.evaluate`. Returns `none` for the JS `undefined`
early returns, `some total` otherwise. -/
def NumberBlockManager.evaluate (m : NumberBlockManager) (fullId : String) :
    Option (Option Int) × NumberBlockManager :=
  if ¬ (m.activeBlockIds.contains fullId) then (none, m)
  else
    let splitId := jsSplit '-' fullId
    if controlMismatch splitId m.options.controlId then
      (none, m)
    else
      let m :=
        if splitId.headD "" ∈ ["minus", "mult", "plus"] then
          m.handleEvaluation fullId
        else if splitId.headD "" = "reset" then
          { m with activeNumberTotal := some 0 }
        else m
      (some m.activeNumberTotal, m)

/-! ## Paginator (`src/factory/paginator.ts`) -/

/-- Record `PagerDataOptionBase`: the content bundle handed to the constructor or
to `loadPages`. A field is `none` when the key is absent
(the `'key' in data` checks). -/
structure PagerDataOptionBase where
  embeds : Option (List Embed) := none
  files : Option (List FileAttachment) := none
  components : Option (List (List ActionRow)) := none
  deriving DecidableEq, Repr

/-- Record `PagerContentBase`: the embed/file part of a page payload. -/
structure PagerContentBase where
  embeds : Option (List (Option Embed)) := none
  files : Option (List (Option FileAttachment)) := none
  deriving DecidableEq, Repr

/-- The display payload assembled by the `page` getter (and consumed by the
menu as its `activeFramePage`): content plus an optional component list
(`undefined` when the paginator carries no rows). -/
structure PageView where
  embeds : Option (List (Option Embed)) := none
  files : Option (List (Option FileAttachment)) := none
  components : Option (List ActionRow) := none
  deriving DecidableEq, Repr

/-- State of a `Paginator` instance. -/
structure Paginator where
  currentPage : Nat := 0
  finalPage : Nat := 0
  activePage : PagerContentBase := {}
  activeRows : Option (List ActionRow) := none
  indexedContent : PagerDataOptionBase := {}
  indexedRows : Option (List (List ActionRow)) := none
  controlRow : ActionRow
  deriving DecidableEq, Repr

/-- The error message of the missing-content rejection in `loadPages`. -/
def missingContentMsg : String :=
  "Failed to load Paginator: One of `embeds` or `files` must be present when constructing a new Paginator!"

/-- The three length-mismatch error messages of `loadPages`. -/
def mismatchMsgs : List String :=
  ["Failed to load Paginator: Mismatched data lengths, `embeds` and `files` must be the same length!",
   "Failed to load Paginator: Mismatched data lengths, `embeds` and `components` must be the same length!",
   "Failed to load Paginator: Mismatched data lengths, `files` and `components` must be the same length!",
   "Failed to load Paginator: Mismatched data lengths, `embeds`, `files`, and `components` must be the same length!"]

/-- Method `Paginator.loadPages`. Cursor `currentPage` is reset and the indexed stores are
overwritten *before* validation, so those mutations survive a failure; every
`finalPage` assignment sits after the validation of its case. -/
def Paginator.loadPages (p : Paginator) (data : PagerDataOptionBase) :
    Except String Unit × Paginator :=
  let p := { p with currentPage := 0 }
  let p := if data.embeds.isSome then
    { p with indexedContent := { p.indexedContent with embeds := data.embeds } } else p
  let p := if data.files.isSome then
    { p with indexedContent := { p.indexedContent with files := data.files } } else p
  let p := if data.components.isSome then
    { p with indexedRows := data.components } else p
  let validateCondition :=
    (if data.embeds.isSome then 1 else 0) +
    (if data.files.isSome then 2 else 0) +
    (if data.components.isSome then 3 else 0)
  match validateCondition with
  | 1 => (Except.ok (), { p with finalPage := ((p.indexedContent.embeds).getD []).length })
  | 2 => (Except.ok (), { p with finalPage := ((p.indexedContent.files).getD []).length })
  | 3 =>
    if data.embeds.isSome = false then (Except.error missingContentMsg, p)
    else if ((p.indexedContent.embeds).getD []).length ≠ ((p.indexedContent.files).getD []).length then
      (Except.error (mismatchMsgs.headD ""), p)
    else (Except.ok (), { p with finalPage := ((p.indexedContent.embeds).getD []).length })
  | 4 =>
    if ((p.indexedContent.embeds).getD []).length ≠ ((p.indexedRows).getD []).length then
      (Except.error ((mismatchMsgs.get? 1).getD ""), p)
    else (Except.ok (), { p with finalPage := ((p.indexedContent.embeds).getD []).length })
  | 5 =>
    if ((p.indexedContent.files).getD []).length ≠ ((p.indexedRows).getD []).length then
      (Except.error ((mismatchMsgs.get? 2).getD ""), p)
    else (Except.ok (), { p with finalPage := ((p.indexedContent.files).getD []).length })
  | 6 =>
    if ((p.indexedContent.embeds).getD []).length ≠ ((p.indexedRows).getD []).length ∨
        ((p.indexedContent.files).getD []).length ≠ ((p.indexedRows).getD []).length then
      (Except.error ((mismatchMsgs.get? 3).getD ""), p)
    else (Except.ok (), { p with finalPage := ((p.indexedContent.embeds).getD []).length })
  | _ => (Except.ok (), p)

/-- Method `Paginator._updateActivePage`. An out-of-range index reads `undefined`
(`List.get?` = `none`) into the one-element slices; spreading an undefined
component page (`...indexedRows['components'][currentPage]`) is a JS
`TypeError`, embedded as the error case. Mutations preceding the crash
point survive it. -/
def Paginator.updateActivePage (p : Paginator) : Except String Unit × Paginator :=
  let p := match p.indexedContent.embeds with
    | some es => { p with activePage := { p.activePage with embeds := some [es.get? p.currentPage] } }
    | none => p
  let p := match p.indexedContent.files with
    | some fs => { p with activePage := { p.activePage with files := some [fs.get? p.currentPage] } }
    | none => p
  match p.indexedRows with
  | some pages =>
    match pages.get? p.currentPage with
    | some rows => (Except.ok (), { p with activeRows := some (p.controlRow :: rows) })
    | none => (Except.error "TypeError: spread of undefined page components", p)
  | none => (Except.ok (), p)

/-- The `page` getter: runs `_updateActivePage` for its side effect and
assembles the view from the refreshed caches. -/
def Paginator.pageGet (p : Paginator) : Except String PageView × Paginator :=
  match p.updateActivePage with
  | (Except.error e, p) => (Except.error e, p)
  | (Except.ok _, p) =>
    (Except.ok { embeds := p.activePage.embeds, files := p.activePage.files,
                 components := p.activeRows }, p)

/-- Method `Paginator.changePage`: rejects directions other than `"next"`/`"back"`,
moves the cyclic cursor, then returns the freshly assembled page view. -/
def Paginator.changePage (p : Paginator) (direction : String) :
    Except String PageView × Paginator :=
  if ¬ (direction = "next" ∨ direction = "back") then
    (Except.error "Failed to change Paginator Page: Invalid paging direction given!", p)
  else
    let p :=
      if direction = "next" then
        { p with currentPage := if p.currentPage = p.finalPage then 0 else p.currentPage + 1 }
      else
        { p with currentPage := if p.currentPage = 0 then p.finalPage else p.currentPage - 1 }
    p.pageGet

/-- The state effect of one `changePage` call (the cursor move plus the cache
refresh), discarding the returned view. -/
def Paginator.changePageState (direction : String) (p : Paginator) : Paginator :=
  (p.changePage direction).2

/-- The `Paginator` constructor: stores the control row, runs `loadPages`
and `_updateActivePage`; a throw from either aborts construction. -/
def Paginator.construct (pagingData : PagerDataOptionBase) (controllerRow : ActionRow) :
    Except String Paginator :=
  let p : Paginator := { controlRow := controllerRow }
  match p.loadPages pagingData with
  | (Except.error e, _) => Except.error e
  | (Except.ok _, p) =>
    match p.updateActivePage with
    | (Except.error e, _) => Except.error e
    | (Except.ok _, p) => Except.ok p

/-- The `baseRowIds` getter: the control row's ids, skipping premium/link
styles and ids starting with `"cancel"`. -/
def Paginator.baseRowIds (p : Paginator) : List String :=
  ((p.controlRow.components.filter isButtonWithId).filter
    (fun b => ¬ jsStartsWith b.custom_id "cancel")).map (·.custom_id)

/-! ## MenuManager (`src/factory/menu.ts`)

State mutated through object fields becomes explicit state threading. The
`pagers` registry and the `activeContext` map are association lists (JS
object key order is irrelevant here: only point lookups occur). A JS method
that takes a `Paginator` argument aliasing a registry entry is modelled by
also threading the registry key, so in-place pager mutations land back in
the registry. -/

/-- Point lookup in an association list (JS `obj[key]`, `none` =
`undefined`). -/
def lookupAssoc {κ α : Type} [DecidableEq κ] (l : List (κ × α)) (k : κ) : Option α :=
  (l.find? (fun kv => kv.1 = k)).map (·.2)

/-- Point update in an association list (JS `obj[key] = v`). -/
def assocSet {κ α : Type} [DecidableEq κ] (l : List (κ × α)) (k : κ) (v : α) : List (κ × α) :=
  if (l.find? (fun kv => kv.1 = k)).isSome then
    l.map (fun kv => if kv.1 = k then (k, v) else kv)
  else l ++ [(k, v)]

/-- Record `PagingRowOptions` for `spawnBasePagingRow`. -/
structure PagingRowOptions where
  useEmoji : Option Bool := none
  useCancel : Option Bool := none
  id : Option String := none
  deriving DecidableEq, Repr

/-- Function `spawnBasePagingRow`: the reserved back/forward paging row. The
id extension applies only when `options.id` is truthy (a non-empty string).
Both the plain and the `useCancel` branch of the source return the same
`[back, forward]` row: the cancel button is constructed but never added. -/
def spawnBasePagingRow (options : Option PagingRowOptions) : ActionRow :=
  let idExtension :=
    match options with
    | some o => match o.id with
      | some i => if i ≠ "" then "-" ++ i else ""
      | none => ""
    | none => ""
  { components :=
      [{ ctype := .button, style := .primary, custom_id := "back-page" ++ idExtension },
       { ctype := .button, style := .primary, custom_id := "next-page" ++ idExtension }] }

/-- Record `MenuDataContentBase`: a frame's display payload; `components`
is a required field. -/
structure MenuDataContentBase where
  embeds : Option (List Embed) := none
  files : Option (List FileAttachment) := none
  components : List ActionRow
  deriving DecidableEq, Repr

/-- Record `ActiveMenuContext`. -/
structure ActiveMenuContext where
  display : Option MenuDataContentBase := none
  pager : Option String := none
  deriving DecidableEq, Repr

/-- Record `FrameForwardOptions`; `usePager?: string | boolean`. -/
structure FrameForwardOptions where
  usePager : Option (String ⊕ Bool) := none
  deriving DecidableEq, Repr

/-- JS truthiness of the `usePager` option (`undefined`, `false` and the
empty string are falsy). -/
def usePagerTruthy : Option (String ⊕ Bool) → Bool
  | none => false
  | some (Sum.inl s) => s ≠ ""
  | some (Sum.inr b) => b

/-- What `anchorMsg.edit` receives: either one of the fallback
`{ content: ... }` objects, a plain frame, or a page view. -/
inductive FrameDisplay
  | contentMsg (text : String)
  | frameView (f : MenuDataContentBase)
  | pageView (v : PageView)
  deriving DecidableEq, Repr

/-- State of a `MenuManager` instance. `anchorMsg` keeps only whether the
message reference exists. -/
structure MenuManager where
  anchorMsg : Bool := true
  displayFrames : List MenuDataContentBase := []
  activeFramePage : Option PageView := none
  activeContext : List (Nat × ActiveMenuContext) := []
  pagers : List (String × Paginator) := []
  pagingActions : List String := ["back-page", "next-page"]
  ignoreActions : List String := []
  nextFrameActions : List (List String) := []
  backFrameActions : List (List String) := []
  cancelFrameActions : List (List String) := []
  deriving DecidableEq, Repr

/-! ### The `checkIf` id-extraction conditions -/

/-- Condition `checkIf.isPagination`. -/
def isPagination (pagingActions : List String) (id : String) : Bool :=
  pagingActions.contains id

/-- Condition `checkIf.isIgnored`. -/
def isIgnored (ignoreActions : List String) (id : String) : Bool :=
  ignoreActions.contains id

/-- Condition `checkIf.isReserved`. -/
def isReserved (pa ia : List String) (id : String) : Bool :=
  isPagination pa id || isIgnored ia id

/-- Condition `checkIf.isBackAction`. -/
def isBackAction (pa ia : List String) (id : String) : Bool :=
  !isReserved pa ia id && jsStartsWith id "back-"

/-- Condition `checkIf.isCancelAction`. -/
def isCancelAction (pa ia : List String) (id : String) : Bool :=
  !isReserved pa ia id && jsStartsWith id "cancel"

/-- Condition `checkIf.isForwardAction`. -/
def isForwardAction (pa ia : List String) (id : String) : Bool :=
  !isBackAction pa ia id && !isCancelAction pa ia id && !isReserved pa ia id

/-- Condition `checkIf.isButton`. -/
def isButton (c : Comp) : Bool :=
  c.ctype = .button && c.style ≠ .premium && c.style ≠ .link

/-- Condition `checkIf.isStrSelect`. -/
def isStrSelect (c : Comp) : Bool :=
  c.ctype = .stringSelect

/-! ### Getters, classification, and the action-table builder -/

/-- The stack-length getter `position`. -/
def MenuManager.position (m : MenuManager) : Nat :=
  m.displayFrames.length

/-- Condition `checkCondition.hasPagers`. -/
def MenuManager.hasPagers (m : MenuManager) : Bool :=
  !m.pagers.isEmpty

/-- Condition `checkCondition.hasPager`. -/
def MenuManager.hasPager (m : MenuManager) (id : String) : Bool :=
  (lookupAssoc m.pagers id).isSome

/-- The active context record of the current position (JS
`activeContext[position - 1]`, `none` when the key is absent). -/
def MenuManager.contextAt (m : MenuManager) : Option ActiveMenuContext :=
  lookupAssoc m.activeContext (m.position - 1)

/-- Filter `checkFor.isPagingAction`. -/
def MenuManager.checkForPaging (m : MenuManager) (id : String) : Bool :=
  m.pagingActions.contains id

/-- Filter `checkFor.isForwardAction` (`nextFrameActions.at(-1)?.includes`;
an empty table array reads `undefined`, which is falsy). -/
def MenuManager.checkForForward (m : MenuManager) (id : String) : Bool :=
  (m.nextFrameActions.getLast?).elim false (·.contains id)

/-- Filter `checkFor.isBackwardAction`. -/
def MenuManager.checkForBackward (m : MenuManager) (id : String) : Bool :=
  (m.backFrameActions.getLast?).elim false (·.contains id)

/-- Filter `checkFor.isCancelAction`. -/
def MenuManager.checkForCancel (m : MenuManager) (id : String) : Bool :=
  (m.cancelFrameActions.getLast?).elim false (·.contains id)

/-- Method `MenuManager.analyzeAction`. -/
def MenuManager.analyzeAction (m : MenuManager) (id : String) : String :=
  if m.checkForPaging id then "PAGE"
  else if m.checkForForward id then "NEXT"
  else if m.checkForBackward id then "BACK"
  else if m.checkForCancel id then "CANCEL"
  else "UNKNOWN"

/-- The per-frame `ActionCollector` record of `_proccessActionList`. -/
structure ActionCollector where
  next : List String
  back : List String
  cancel : List String
  deriving DecidableEq, Repr

/-- The row loop of `_proccessActionList`. Reading `.type` of the first
element of an empty row is a JS `TypeError`, embedded as the error case. -/
def buildActions (pa ia : List String) : List ActionRow → ActionCollector →
    Except String ActionCollector
  | [], acc => Except.ok acc
  | actionRow :: rest, acc =>
    match actionRow.components.head? with
    | none => Except.error "TypeError: first element of an empty action row"
    | some c0 =>
      if isStrSelect c0 then
        buildActions pa ia rest { acc with next := acc.next ++ [c0.custom_id] }
      else
        let remainingActions := (actionRow.components.filter isButton).map (·.custom_id)
        buildActions pa ia rest
          { next := acc.next ++ remainingActions.filter (isForwardAction pa ia)
            back := acc.back ++ remainingActions.filter (isBackAction pa ia)
            cancel := acc.cancel ++ remainingActions.filter (isCancelAction pa ia) }

/-- Method `MenuManager._proccessActionList`: builds one collector from the
rows and appends one entry to each of the three tables. A crash in the loop
leaves the tables untouched (the collector is a local). -/
def MenuManager.proccessActionList (m : MenuManager) (actionList : List ActionRow) :
    Except String MenuManager :=
  match buildActions m.pagingActions m.ignoreActions actionList
      { next := [], back := [], cancel := [] } with
  | Except.error e => Except.error e
  | Except.ok actions =>
    Except.ok { m with
      nextFrameActions := m.nextFrameActions ++ [actions.next]
      backFrameActions := m.backFrameActions ++ [actions.back]
      cancelFrameActions := m.cancelFrameActions ++ [actions.cancel] }

/-! ### Display getters and refresh -/

/-- The `frame` getter. -/
def MenuManager.frame (m : MenuManager) : FrameDisplay :=
  match m.displayFrames.getLast? with
  | some f => FrameDisplay.frameView f
  | none => FrameDisplay.contentMsg "Message edit failure: No Display Found"

/-- The `framePage` getter. On each evaluation it destructively appends the
top frame's component rows onto the stored active page before returning it.
(The second source guard only fires on an empty stack: a frame's
`components` array is required and arrays are truthy in JS.) -/
def MenuManager.framePage (m : MenuManager) : Except String FrameDisplay × MenuManager :=
  match m.activeFramePage with
  | none => (Except.ok (FrameDisplay.contentMsg "No paging display found!"), m)
  | some fp =>
    match fp.components with
    | none => (Except.ok (FrameDisplay.contentMsg "No paging display found!"), m)
    | some comps =>
      match m.displayFrames.getLast? with
      | none => (Except.error "No active display exists, failed to display frame page data", m)
      | some top =>
        let fp := { fp with components := some (comps ++ top.components) }
        (Except.ok (FrameDisplay.pageView fp), { m with activeFramePage := some fp })

/-- Method `MenuManager.frameRefresh`: requires the anchor message; edits it
with the plain frame, or with the (mutating) frame page when `paging`. -/
def MenuManager.frameRefresh (m : MenuManager) (paging : Bool := false) :
    Except String FrameDisplay × MenuManager :=
  if ¬ m.anchorMsg then
    (Except.error "Message Reference Failure: AnchorMsg no longer exists!", m)
  else if paging then m.framePage
  else (Except.ok m.frame, m)

/-- Method `MenuManager._injectPagingContext` on the registry entry `pid`:
overwrites `pagingActions` with the pager's control-row ids, then reads the
pager's `page` getter (mutating the pager, hence the registry entry) into
`activeFramePage`. `pagingActions` is already overwritten if the getter
crashes. -/
def MenuManager.injectPagingContext (m : MenuManager) (pid : String) (pager : Paginator) :
    Except String Unit × MenuManager :=
  let m := { m with pagingActions := pager.baseRowIds }
  match pager.pageGet with
  | (Except.error e, pager) => (Except.error e, { m with pagers := assocSet m.pagers pid pager })
  | (Except.ok v, pager) =>
    (Except.ok (), { m with pagers := assocSet m.pagers pid pager, activeFramePage := some v })

/-! ### Stack transitions -/

/-- Method `MenuManager.frameForward`. The new frame is pushed *first*; the
`usePager` validation (and every later failure) therefore leaves the pushed
frame behind without appending action tables. -/
def MenuManager.frameForward (m : MenuManager) (contents : MenuDataContentBase)
    (options : Option FrameForwardOptions := none) : Except String FrameDisplay × MenuManager :=
  let m := { m with displayFrames := m.displayFrames ++ [contents] }
  match options with
  | none =>
    match m.proccessActionList contents.components with
    | Except.error e => (Except.error e, m)
    | Except.ok m =>
      let ctx : ActiveMenuContext := { display := some contents }
      let m := { m with activeContext := assocSet m.activeContext (m.position - 1) ctx }
      m.frameRefresh false
  | some opts =>
    if usePagerTruthy opts.usePager then
      let isStrId := match opts.usePager with
        | some (Sum.inl _) => true
        | _ => false
      let strId := match opts.usePager with
        | some (Sum.inl s) => s
        | _ => "0"
      if !m.hasPagers || (isStrId && !m.hasPager strId) then
        (Except.error "A Paginator must exist before it can be assigned to a context!", m)
      else
        let pagerId := if isStrId then strId else "0"
        match lookupAssoc m.pagers pagerId with
        | none => (Except.error "TypeError: undefined pager dereference", m)
        | some contextPager =>
          match m.injectPagingContext pagerId contextPager with
          | (Except.error e, m) => (Except.error e, m)
          | (Except.ok _, m) =>
            match m.proccessActionList (contents.components ++ [contextPager.controlRow]) with
            | Except.error e => (Except.error e, m)
            | Except.ok m =>
              let ctx : ActiveMenuContext := { display := some contents, pager := some pagerId }
              let m := { m with activeContext := assocSet m.activeContext (m.position - 1) ctx }
              m.frameRefresh true
    else
      match m.proccessActionList contents.components with
      | Except.error e => (Except.error e, m)
      | Except.ok m =>
        let ctx : ActiveMenuContext := { display := some contents }
        let m := { m with activeContext := assocSet m.activeContext (m.position - 1) ctx }
        m.frameRefresh false

/-- The shared tail of `frameBackward` / `frameRestart`: re-inject the new
top context's pager if one is recorded, then refresh. -/
def MenuManager.reinjectAndRefresh (m : MenuManager) :
    Except String (Option FrameDisplay) × MenuManager :=
  match m.contextAt with
  | none => (Except.error "TypeError: missing active context", m)
  | some ctx =>
    match ctx.pager with
    | some pid =>
      match lookupAssoc m.pagers pid with
      | none => (Except.error "TypeError: undefined pager dereference", m)
      | some pager =>
        match m.injectPagingContext pid pager with
        | (Except.error e, m) => (Except.error e, m)
        | (Except.ok _, m) =>
          match m.frameRefresh true with
          | (r, m) => (r.map some, m)
    | none =>
      match m.frameRefresh false with
      | (r, m) => (r.map some, m)

/-- Method `MenuManager.frameBackward`: a no-op at depth 1, otherwise pops
the frame and one entry from each of the three tables, then re-renders
through the new top context. -/
def MenuManager.frameBackward (m : MenuManager) :
    Except String (Option FrameDisplay) × MenuManager :=
  if m.displayFrames.length = 1 then (Except.ok none, m)
  else
    let m := { m with
      displayFrames := m.displayFrames.dropLast
      backFrameActions := m.backFrameActions.dropLast
      cancelFrameActions := m.cancelFrameActions.dropLast
      nextFrameActions := m.nextFrameActions.dropLast }
    m.reinjectAndRefresh

/-- Method `MenuManager.frameRestart`: truncates the stack and the three
tables to their first entry (`[xs[0]]`; `take 1`, the source is only run on
non-empty stores), then re-renders through the root context. -/
def MenuManager.frameRestart (m : MenuManager) :
    Except String (Option FrameDisplay) × MenuManager :=
  let m := { m with
    displayFrames := m.displayFrames.take 1
    backFrameActions := m.backFrameActions.take 1
    cancelFrameActions := m.cancelFrameActions.take 1
    nextFrameActions := m.nextFrameActions.take 1 }
  m.reinjectAndRefresh

/-- Method `MenuManager.framePageChange`: requires some pager; splits the id,
takes the trailing segment as the pager id and the leading one as the
direction, delegates to that pager's `changePage`, and re-renders paged. -/
def MenuManager.framePageChange (m : MenuManager) (fullCustomId : String) :
    Except String FrameDisplay × MenuManager :=
  if ¬ m.hasPagers then
    (Except.error "No paginators have been created yet! Create one first using `MenuManager.spawnPageContainer`", m)
  else
    let idSplits := jsSplit '-' fullCustomId
    let pagerId := (idSplits.getLast?).getD "0"
    let pagerDirection := idSplits.headD ""
    match lookupAssoc m.pagers pagerId with
    | none => (Except.error "TypeError: undefined pager dereference", m)
    | some pager =>
      match pager.changePage pagerDirection with
      | (Except.error e, pager) =>
        (Except.error e, { m with pagers := assocSet m.pagers pagerId pager })
      | (Except.ok v, pager) =>
        let m := { m with pagers := assocSet m.pagers pagerId pager,
                          activeFramePage := some v }
        m.frameRefresh true

/-- Method `MenuManager.spawnPageContainer`: registers a fresh `Paginator`
under `id` (unique ids required); the first registration also adopts the
pager's page as the active frame page. -/
def MenuManager.spawnPageContainer (m : MenuManager) (contents : PagerDataOptionBase)
    (id : String := "0") : Except String Unit × MenuManager :=
  if (lookupAssoc m.pagers id).isSome then
    (Except.error "Additional Paginators require unique ids!!", m)
  else
    match Paginator.construct contents (spawnBasePagingRow (some { id := some id })) with
    | Except.error e => (Except.error e, m)
    | Except.ok pager =>
      let m := { m with pagers := assocSet m.pagers id pager }
      match m.activeFramePage with
      | some _ => (Except.ok (), m)
      | none =>
        match pager.pageGet with
        | (Except.error e, pager) =>
          (Except.error e, { m with pagers := assocSet m.pagers id pager })
        | (Except.ok v, pager) =>
          (Except.ok (), { m with pagers := assocSet m.pagers id pager,
                                  activeFramePage := some v })

/-- Method `MenuManager.updatePageContainer`: reloads the pager stored
under `id` through `Paginator.loadPages`. -/
def MenuManager.updatePageContainer (m : MenuManager) (contents : PagerDataOptionBase)
    (id : String := "0") : Except String Unit × MenuManager :=
  match lookupAssoc m.pagers id with
  | none => (Except.error "No Paginator for for given id!", m)
  | some pager =>
    match pager.loadPages contents with
    | (r, pager) => (r, { m with pagers := assocSet m.pagers id pager })

/-- The `MenuManager` constructor (reached through `createAnchor`): builds
the root action tables, pushes the root frame, and records its context. -/
def MenuManager.create (contents : MenuDataContentBase) : Except String MenuManager :=
  let m : MenuManager := {}
  match m.proccessActionList contents.components with
  | Except.error e => Except.error e
  | Except.ok m =>
    let m := { m with displayFrames := m.displayFrames ++ [contents] }
    let ctx : ActiveMenuContext := { display := some contents }
    Except.ok { m with activeContext := assocSet m.activeContext (m.position - 1) ctx }

/-! ## Derived notions and fixtures used by the statements -/

/-- A fresh default instance, `new NumberBlockManager()` (3 rows,
`controlId = "amount"`). -/
def nbAmount : NumberBlockManager :=
  (NumberBlockManager.create {}).get (by rfl)

/-- Fixture: a root frame with one forward-class button. -/
def exRootContents : MenuDataContentBase :=
  { components := [{ components := [{ ctype := .button, style := .primary, custom_id := "open-menu" }] }] }

/-- Fixture: a second frame with one back and one cancel button. -/
def exSecondFrame : MenuDataContentBase :=
  { components := [{ components :=
      [{ ctype := .button, style := .secondary, custom_id := "back-one" },
       { ctype := .button, style := .danger, custom_id := "cancel-one" }] }] }

/-- Fixture: the menu state right after `createAnchor` on `exRootContents`. -/
def exMenu : MenuManager :=
  ((MenuManager.create exRootContents).toOption).getD {}

/-- Fixture: a three-embed content bundle. -/
def exPagerData : PagerDataOptionBase :=
  { embeds := some [⟨1⟩, ⟨2⟩, ⟨3⟩] }

/-- Fixture: a paginator over the three-embed bundle. -/
def exPaginator : Paginator :=
  ((Paginator.construct exPagerData (spawnBasePagingRow none)).toOption).getD
    { controlRow := { components := [] } }

/-- Fixture: a stored active frame page carrying one pager row. -/
def exPageView : PageView :=
  { components := some [{ components := [{ ctype := .button, style := .primary, custom_id := "p1" }] }] }

/-- Fixture: the action tables built from the second frame's rows on a
fresh menu state. -/
def exProcessed : MenuManager :=
  ((({} : MenuManager).proccessActionList exSecondFrame.components).toOption).getD {}

/-- The lengths of the content arrays present in a bundle. -/
def presentLens (data : PagerDataOptionBase) : List Nat :=
  (data.embeds.map List.length).toList ++ (data.files.map List.length).toList ++
    (data.components.map List.length).toList

/-- Per-row `next`-table contribution of the `_proccessActionList` loop,
stated standalone for the classification theorem. -/
def rowNextIds (pa ia : List String) (r : ActionRow) : List String :=
  match r.components.head? with
  | some c0 =>
    if isStrSelect c0 then [c0.custom_id]
    else ((r.components.filter isButton).map (·.custom_id)).filter (isForwardAction pa ia)
  | none => []

/-- Per-row `back`-table contribution. -/
def rowBackIds (pa ia : List String) (r : ActionRow) : List String :=
  match r.components.head? with
  | some c0 =>
    if isStrSelect c0 then []
    else ((r.components.filter isButton).map (·.custom_id)).filter (isBackAction pa ia)
  | none => []

/-- Per-row `cancel`-table contribution. -/
def rowCancelIds (pa ia : List String) (r : ActionRow) : List String :=
  match r.components.head? with
  | some c0 =>
    if isStrSelect c0 then []
    else ((r.components.filter isButton).map (·.custom_id)).filter (isCancelAction pa ia)
  | none => []

/-- Index alignment of the three per-position action tables with the frame
stack. -/
def tablesAligned (m : MenuManager) : Prop :=
  m.nextFrameActions.length = m.displayFrames.length ∧
  m.backFrameActions.length = m.displayFrames.length ∧
  m.cancelFrameActions.length = m.displayFrames.length

/-- The menu states reachable from the constructor through *successful*
public operations (each constructor requires the operation's JS call to
return without throwing). -/
inductive ReachableMenu : MenuManager → Prop
  | created (contents : MenuDataContentBase) (m : MenuManager) :
      MenuManager.create contents = Except.ok m → ReachableMenu m
  | forwarded (m : MenuManager) (contents : MenuDataContentBase)
      (options : Option FrameForwardOptions) (d : FrameDisplay) (m' : MenuManager) :
      ReachableMenu m → m.frameForward contents options = (Except.ok d, m') → ReachableMenu m'
  | movedBack (m : MenuManager) (d : Option FrameDisplay) (m' : MenuManager) :
      ReachableMenu m → m.frameBackward = (Except.ok d, m') → ReachableMenu m'
  | restarted (m : MenuManager) (d : Option FrameDisplay) (m' : MenuManager) :
      ReachableMenu m → m.frameRestart = (Except.ok d, m') → ReachableMenu m'
  | refreshed (m : MenuManager) (paging : Bool) (d : FrameDisplay) (m' : MenuManager) :
      ReachableMenu m → m.frameRefresh paging = (Except.ok d, m') → ReachableMenu m'
  | pageChanged (m : MenuManager) (fullCustomId : String) (d : FrameDisplay) (m' : MenuManager) :
      ReachableMenu m → m.framePageChange fullCustomId = (Except.ok d, m') → ReachableMenu m'
  | pagerSpawned (m : MenuManager) (contents : PagerDataOptionBase) (id : String) (m' : MenuManager) :
      ReachableMenu m → m.spawnPageContainer contents id = (Except.ok (), m') → ReachableMenu m'
  | pagerUpdated (m : MenuManager) (contents : PagerDataOptionBase) (id : String) (m' : MenuManager) :
      ReachableMenu m → m.updatePageContainer contents id = (Except.ok (), m') → ReachableMenu m'

/-- Two menu states agreeing on the frame stack and the three tables. -/
def sameFramesTables (a b : MenuManager) : Prop :=
  a.displayFrames = b.displayFrames ∧ a.nextFrameActions = b.nextFrameActions ∧
  a.backFrameActions = b.backFrameActions ∧ a.cancelFrameActions = b.cancelFrameActions

/-! ## General lemmas about the string primitives -/

theorem splitOnChar_ne_nil (sep : Char) (l : List Char) : splitOnChar sep l ≠ [] := by
  induction l with
  | nil => exact fun h => List.noConfusion h
  | cons c cs ih =>
    unfold splitOnChar
    by_cases h : c = sep
    · simp [h]
    · rw [if_neg h]
      cases hh : splitOnChar sep cs <;> simp

theorem splitOnChar_of_not_mem (sep : Char) (l : List Char) (h : sep ∉ l) :
    splitOnChar sep l = [l] := by
  induction l with
  | nil => rfl
  | cons c cs ih =>
    simp only [List.mem_cons, not_or] at h
    unfold splitOnChar
    rw [if_neg (fun hc => h.1 hc.symm), ih h.2]

theorem splitOnChar_cons_eq (sep c : Char) (cs : List Char) :
    splitOnChar sep (c :: cs) =
      if c = sep then [] :: splitOnChar sep cs
      else match splitOnChar sep cs with
        | [] => [[c]]
        | p :: ps => (c :: p) :: ps := rfl

theorem splitOnChar_append_sep (sep : Char) (xs ys : List Char) (h : sep ∉ xs) :
    splitOnChar sep (xs ++ sep :: ys) = xs :: splitOnChar sep ys := by
  induction xs with
  | nil => simp [splitOnChar]
  | cons c cs ih =>
    simp only [List.mem_cons, not_or] at h
    rw [List.cons_append, splitOnChar_cons_eq, if_neg (fun hc => h.1 hc.symm), ih h.2]

theorem splitOnChar_parts_not_mem (sep : Char) (l : List Char) :
    ∀ p ∈ splitOnChar sep l, sep ∉ p := by
  induction l with
  | nil =>
    intro p hp
    rcases List.mem_singleton.mp hp with rfl
    exact List.not_mem_nil sep
  | cons c cs ih =>
    unfold splitOnChar
    by_cases h : c = sep
    · rw [if_pos h]
      intro p hp
      rcases List.mem_cons.mp hp with rfl | hp
      · exact List.not_mem_nil sep
      · exact ih p hp
    · rw [if_neg h]
      cases hh : splitOnChar sep cs with
      | nil => exact absurd hh (splitOnChar_ne_nil sep cs)
      | cons q qs =>
        intro p hp
        rcases List.mem_cons.mp hp with rfl | hp
        · have hq : sep ∉ q := ih q (by rw [hh]; exact List.mem_cons_self q qs)
          simp only [List.mem_cons, not_or]
          exact ⟨fun hc => h hc.symm, hq⟩
        · exact ih p (by rw [hh]; exact List.mem_cons_of_mem q hp)

theorem jsSplit_push_append (sep : Char) (w c : String) (hw : sep ∉ w.data) :
    jsSplit sep (w.push sep ++ c) = w :: jsSplit sep c := by
  unfold jsSplit
  have hd : (w.push sep ++ c).data = w.data ++ sep :: c.data := by
    rw [String.data_append, String.data_push, List.append_assoc]
    rfl
  rw [hd, splitOnChar_append_sep sep _ _ hw]
  rfl

theorem jsSplit_get1_ne_self (c : String) : (jsSplit '-' c).get? 1 ≠ some c := by
  intro h
  unfold jsSplit at h
  rw [List.get?_map] at h
  cases hp : (splitOnChar '-' c.data).get? 1 with
  | none => rw [hp] at h; exact Option.noConfusion h
  | some pd =>
    rw [hp] at h
    have hpd : String.mk pd = c := Option.some.inj h
    by_cases hm : '-' ∈ c.data
    · have hmem : pd ∈ splitOnChar '-' c.data := List.get?_mem hp
      have hno : '-' ∉ pd := splitOnChar_parts_not_mem '-' c.data pd hmem
      rw [← hpd] at hm
      exact hno hm
    · rw [splitOnChar_of_not_mem '-' c.data hm] at hp
      simp at hp

/-! ## Lemmas about `NumberBlockManager.evaluate` -/

/-- An id of the shape `<word>-<anything>` with a hyphen-free `word` other
than `"reset"` always fails the `controlId` check against its own tail: the
third segment of the split, when it exists at all, is a proper piece of the
tail and never the whole tail. -/
theorem controlMismatch_sep_word (w c : String) (hw : '-' ∉ w.data) (hwr : w ≠ "reset") :
    controlMismatch (jsSplit '-' (w.push '-' ++ c)) c := by
  rw [jsSplit_push_append '-' w c hw]
  left
  refine ⟨by simpa using hwr, ?_⟩
  simpa using jsSplit_get1_ne_self c

theorem evaluate_controlMismatch (m : NumberBlockManager) (id : String)
    (h : controlMismatch (jsSplit '-' id) m.options.controlId) :
    m.evaluate id = (none, m) := by
  unfold NumberBlockManager.evaluate
  by_cases hmem : (m.activeBlockIds.contains id : Bool)
  · rw [if_neg (by simpa using hmem)]
    simp only [if_pos h]
  · rw [if_pos (by simpa using hmem)]

theorem evaluate_plus10k (m : NumberBlockManager) (t : Int)
    (hids : m.activeBlockIds.contains "plus-10k-amount" = true)
    (hcid : m.options.controlId = "amount") (ht : m.activeNumberTotal = some t) :
    m.evaluate "plus-10k-amount"
      = (some (some (t + 10000)), { m with activeNumberTotal := some (t + 10000) }) := by
  have hsp : jsSplit '-' "plus-10k-amount" = ["plus", "10k", "amount"] := by decide
  have hconv : applyConversion "10k" = some 10000 := by decide
  unfold NumberBlockManager.evaluate NumberBlockManager.handleEvaluation
  rw [hids, hsp]
  rw [if_neg (by simp)]
  rw [if_neg (by rw [hcid]; decide)]
  rw [if_pos (by decide)]
  have hsc : signCallers "plus" = some CallableSign.additionSign := by decide
  simp [hsc, hconv, ht, CallableSign.applySignJs, CallableSign.applySign]

theorem evaluate_reset (m : NumberBlockManager)
    (hids : m.activeBlockIds.contains "reset-amount" = true)
    (hcid : m.options.controlId = "amount") :
    m.evaluate "reset-amount" = (some (some 0), { m with activeNumberTotal := some 0 }) := by
  have hsp : jsSplit '-' "reset-amount" = ["reset", "amount"] := by decide
  unfold NumberBlockManager.evaluate
  rw [hids, hsp]
  rw [if_neg (by simp)]
  rw [if_neg (by rw [hcid]; decide)]
  rw [if_neg (by decide), if_pos (by decide)]

/-! ## Lemmas about the `Paginator` cursor and loader -/

theorem updateActivePage_cursor (p : Paginator) :
    (p.updateActivePage).2.currentPage = p.currentPage
    ∧ (p.updateActivePage).2.finalPage = p.finalPage := by
  unfold Paginator.updateActivePage
  dsimp only
  repeat' split
  all_goals simp

theorem changePageState_next (p : Paginator) :
    (Paginator.changePageState "next" p).currentPage
      = (if p.currentPage = p.finalPage then 0 else p.currentPage + 1)
    ∧ (Paginator.changePageState "next" p).finalPage = p.finalPage := by
  unfold Paginator.changePageState Paginator.changePage
  rw [if_neg (by simp), if_pos rfl]
  unfold Paginator.pageGet
  set q : Paginator := { p with currentPage := if p.currentPage = p.finalPage then 0 else p.currentPage + 1 } with hq
  dsimp only
  have hcur := updateActivePage_cursor q
  rcases hu : q.updateActivePage with ⟨r, p2⟩
  rw [hu] at hcur
  cases r <;> simpa [hq] using hcur

theorem iterate_next_cursor (n : Nat) : ∀ (j : Nat) (p : Paginator),
    p.finalPage = n → p.currentPage ≤ n →
    ((Paginator.changePageState "next")^[j] p).currentPage = (p.currentPage + j) % (n + 1) := by
  intro j
  induction j with
  | zero =>
    intro p hf hc
    simpa using (Nat.mod_eq_of_lt (Nat.lt_succ_of_le hc)).symm
  | succ k ih =>
    intro p hf hc
    rw [Function.iterate_succ_apply]
    rcases changePageState_next p with ⟨hc', hf'⟩
    rw [hf] at hc'
    by_cases h : p.currentPage = n
    · rw [if_pos h] at hc'
      rw [ih _ (by rw [hf', hf]) (by rw [hc']; exact Nat.zero_le n), hc']
      have harg : p.currentPage + (k + 1) = k + (n + 1) := by omega
      rw [harg, Nat.add_mod_right, Nat.zero_add]
    · rw [if_neg h] at hc'
      have hle : p.currentPage + 1 ≤ n := by omega
      rw [ih _ (by rw [hf', hf]) (by rw [hc']; exact hle), hc']
      have harg : p.currentPage + 1 + k = p.currentPage + (k + 1) := by omega
      rw [harg]

/-! ## Claim theorems -/

/-- C6: from index 0, `changePage("next")` applied `finalPage + 1` times
returns the cursor to 0 — for every paginator state, so in particular for
the ones produced by `loadPages`, whose `finalPage` is the content-sequence
length. -/
theorem paginator_next_full_cycle (p : Paginator) (h0 : p.currentPage = 0) :
    ((Paginator.changePageState "next")^[p.finalPage + 1] p).currentPage = 0 := by
  have h := iterate_next_cursor p.finalPage (p.finalPage + 1) p rfl (by omega)
  rw [h, h0, Nat.zero_add, Nat.mod_self]

/-- Witness for C6: the three-embed fixture paginator (`finalPage = 3`)
cycles back to 0 after 4 steps. -/
theorem paginator_next_full_cycle_witness :
    ((Paginator.changePageState "next")^[exPaginator.finalPage + 1] exPaginator).currentPage = 0 :=
  paginator_next_full_cycle exPaginator (by rfl)

/-- C8: loading a bundle whose present content arrays have unequal lengths
fails with one of the length-mismatch errors and leaves `finalPage` exactly
as it was before the call. -/
theorem loadPages_length_mismatch (p : Paginator) (data : PagerDataOptionBase)
    (a b : Nat) (ha : a ∈ presentLens data) (hb : b ∈ presentLens data) (hab : a ≠ b) :
    (∃ msg ∈ mismatchMsgs, (p.loadPages data).1 = Except.error msg)
    ∧ (p.loadPages data).2.finalPage = p.finalPage := by
  rcases he : data.embeds with _ | es
  · rcases hf : data.files with _ | fs
    · rcases hc : data.components with _ | pages
      · simp [presentLens, he, hf, hc] at ha
      · simp [presentLens, he, hf, hc] at ha hb
        omega
    · rcases hc : data.components with _ | pages
      · simp [presentLens, he, hf, hc] at ha hb
        omega
      · simp [presentLens, he, hf, hc] at ha hb
        have hne : fs.length ≠ pages.length := by
          rcases ha with rfl | rfl <;> rcases hb with rfl | rfl <;> omega
        unfold Paginator.loadPages
        simp [he, hf, hc, hne, mismatchMsgs]
  · rcases hf : data.files with _ | fs
    · rcases hc : data.components with _ | pages
      · simp [presentLens, he, hf, hc] at ha hb
        omega
      · simp [presentLens, he, hf, hc] at ha hb
        have hne : es.length ≠ pages.length := by
          rcases ha with rfl | rfl <;> rcases hb with rfl | rfl <;> omega
        unfold Paginator.loadPages
        simp [he, hf, hc, hne, mismatchMsgs]
    · rcases hc : data.components with _ | pages
      · simp [presentLens, he, hf, hc] at ha hb
        have hne : es.length ≠ fs.length := by
          rcases ha with rfl | rfl <;> rcases hb with rfl | rfl <;> omega
        unfold Paginator.loadPages
        simp [he, hf, hc, hne, mismatchMsgs]
      · simp [presentLens, he, hf, hc] at ha hb
        have hne : es.length ≠ pages.length ∨ fs.length ≠ pages.length := by
          by_cases h1 : es.length = pages.length <;> by_cases h2 : fs.length = pages.length <;>
            [skip; exact Or.inr h2; exact Or.inl h1; exact Or.inl h1]
          · exfalso
            rcases ha with rfl | rfl | rfl <;> rcases hb with rfl | rfl | rfl <;> omega
        unfold Paginator.loadPages
        simp [he, hf, hc, mismatchMsgs]
        rw [if_pos hne]
        simp

/-- Witness for C8: three embeds against two component pages fail with a
mismatch error, and the fixture's `finalPage` (3) is untouched. -/
theorem loadPages_length_mismatch_witness :
    (∃ msg ∈ mismatchMsgs,
      (exPaginator.loadPages { embeds := some [⟨1⟩, ⟨2⟩, ⟨3⟩], components := some [[], []] }).1
        = Except.error msg)
    ∧ (exPaginator.loadPages { embeds := some [⟨1⟩, ⟨2⟩, ⟨3⟩], components := some [[], []] }).2.finalPage
        = exPaginator.finalPage :=
  loadPages_length_mismatch exPaginator _ 3 2 (by decide) (by decide) (by decide)

/-- Counterexample for C5: a bundle holding files and components but no
embeds is *not* rejected — with matching lengths both the constructor and
`loadPages` accept it. -/
theorem files_components_bundle_accepted :
    (Paginator.construct { files := some [⟨0⟩], components := some [[]] }
      (spawnBasePagingRow none)).isOk = true
    ∧ (exPaginator.loadPages { files := some [⟨0⟩], components := some [[]] }).1 = Except.ok () := by
  exact ⟨by rfl, by rfl⟩

/-- C5 (amended): `loadPages` fails with the missing-content error exactly
when the bundle holds components but neither embeds nor files; a bundle of
files plus components without embeds is accepted whenever the lengths
match, setting `finalPage` to the files length. -/
theorem loadPages_missing_content (p : Paginator) (data : PagerDataOptionBase) :
    ((p.loadPages data).1 = Except.error missingContentMsg
      ↔ data.embeds = none ∧ data.files = none ∧ data.components.isSome = true)
    ∧ (∀ (fs : List FileAttachment) (pages : List (List ActionRow)),
        data.embeds = none → data.files = some fs → data.components = some pages →
        fs.length = pages.length →
        (p.loadPages data).1 = Except.ok () ∧ (p.loadPages data).2.finalPage = fs.length) := by
  constructor
  · rcases he : data.embeds with _ | es <;> rcases hf : data.files with _ | fs <;>
      rcases hc : data.components with _ | pages <;>
      (unfold Paginator.loadPages; simp [he, hf, hc, missingContentMsg, mismatchMsgs]) <;>
      (try (split <;> simp))
  · intro fs pages he hf hc hlen
    unfold Paginator.loadPages
    simp [he, hf, hc, hlen]

/-- Witness for C5: the one-file/one-page bundle loads successfully with
`finalPage = 1`. -/
theorem loadPages_missing_content_witness :
    (exPaginator.loadPages { files := some [⟨0⟩], components := some [[]] }).1 = Except.ok ()
    ∧ (exPaginator.loadPages { files := some [⟨0⟩], components := some [[]] }).2.finalPage = 1 :=
  (loadPages_missing_content exPaginator _).2 [⟨0⟩] [[]] rfl rfl rfl rfl

/-- Bridging fact: the `at(-1)?.includes` combinator of the `checkFor`
filters equals membership in the last table, with `[]` for an empty table
array. -/
theorem optElim_mem (o : Option (List String)) (id : String) :
    (o.elim false fun x => decide (id ∈ x)) = decide (id ∈ o.getD []) := by
  cases o <;> simp

/-- C9: the `framePage` getter is not idempotent. With an active frame page
whose components are present and a non-empty frame stack, each evaluation
appends the top frame's rows onto the stored page, so the second of two
consecutive evaluations yields (and stores) the top frame's rows twice. -/
theorem framePage_appends_top_rows_twice (m : MenuManager) (fp : PageView)
    (comps : List ActionRow) (top : MenuDataContentBase)
    (hfp : m.activeFramePage = some fp) (hc : fp.components = some comps)
    (htop : m.displayFrames.getLast? = some top) :
    ((m.framePage).2.framePage).2.activeFramePage
      = some { fp with components := some (comps ++ top.components ++ top.components) }
    ∧ ((m.framePage).2.framePage).1
      = Except.ok (FrameDisplay.pageView
          { fp with components := some (comps ++ top.components ++ top.components) }) := by
  unfold MenuManager.framePage
  simp [hfp, hc, htop]

/-- Witness for C9: the fixture page against the one-frame fixture menu;
after two reads the single stored row is followed by the root frame's row
twice. -/
theorem framePage_appends_top_rows_twice_witness :
    ((({ exMenu with activeFramePage := some exPageView } : MenuManager).framePage).2.framePage).2.activeFramePage
      = some { exPageView with components := some ([{ components := [{ ctype := .button, style := .primary, custom_id := "p1" }] }] ++ exRootContents.components ++ exRootContents.components) } :=
  (framePage_appends_top_rows_twice _ exPageView _ exRootContents rfl rfl (by rfl)).1

/-- C3: `analyzeAction` classifies with strict priority — pagination ids
first (independent of the stack), then membership of the id in the last
`next`, `back`, `cancel` tables in that order, and `UNKNOWN` when the id
sits in none of them. -/
theorem analyzeAction_priority (m : MenuManager) (id : String) :
    ((id ∈ m.pagingActions) → m.analyzeAction id = "PAGE")
    ∧ (id ∉ m.pagingActions →
        id ∈ (m.nextFrameActions.getLast?).getD [] →
        m.analyzeAction id = "NEXT")
    ∧ (id ∉ m.pagingActions →
        id ∉ (m.nextFrameActions.getLast?).getD [] →
        id ∈ (m.backFrameActions.getLast?).getD [] →
        m.analyzeAction id = "BACK")
    ∧ (id ∉ m.pagingActions →
        id ∉ (m.nextFrameActions.getLast?).getD [] →
        id ∉ (m.backFrameActions.getLast?).getD [] →
        id ∈ (m.cancelFrameActions.getLast?).getD [] →
        m.analyzeAction id = "CANCEL")
    ∧ (id ∉ m.pagingActions →
        id ∉ (m.nextFrameActions.getLast?).getD [] →
        id ∉ (m.backFrameActions.getLast?).getD [] →
        id ∉ (m.cancelFrameActions.getLast?).getD [] →
        m.analyzeAction id = "UNKNOWN") := by
  refine ⟨?_, ?_, ?_, ?_, ?_⟩ <;> intros <;>
    simp_all [MenuManager.analyzeAction, MenuManager.checkForPaging, MenuManager.checkForForward,
      MenuManager.checkForBackward, MenuManager.checkForCancel, optElim_mem]

/-- Witness for C3: the fixture menu classifies a reserved paging id, its
own forward button, and an unknown id. -/
theorem analyzeAction_priority_witness :
    exMenu.analyzeAction "back-page" = "PAGE"
    ∧ exMenu.analyzeAction "open-menu" = "NEXT"
    ∧ exMenu.analyzeAction "zzz" = "UNKNOWN" :=
  ⟨(analyzeAction_priority exMenu "back-page").1 (by decide),
   (analyzeAction_priority exMenu "open-menu").2.1 (by decide) (by decide),
   (analyzeAction_priority exMenu "zzz").2.2.2.2 (by decide) (by decide) (by decide) (by decide)⟩

/-- Counterexample for C1: on the fixture menu (no pagers registered),
`frameForward` with `usePager: "missing"` fails — but the frame stack has
grown by one frame, not stayed unchanged. -/
theorem frameForward_missing_pager_mutates_stack :
    ((exMenu.frameForward exSecondFrame (some { usePager := some (Sum.inl "missing") })).1
      = Except.error "A Paginator must exist before it can be assigned to a context!")
    ∧ (exMenu.frameForward exSecondFrame (some { usePager := some (Sum.inl "missing") })).2.displayFrames.length
        = exMenu.displayFrames.length + 1 := ⟨rfl, rfl⟩

/-- C1 (amended): `frameForward` with `usePager` naming a non-empty id
absent from the registry (or any truthy `usePager` with an empty registry)
fails with the pager error, and the failed call leaves the frame stack with
exactly the new frame pushed on top (the push precedes the validation) and
every other field, the three action tables included, unchanged. -/
theorem frameForward_bad_pager_error_keeps_pushed_frame (m : MenuManager)
    (contents : MenuDataContentBase) (opts : FrameForwardOptions)
    (h : (∃ s, opts.usePager = some (Sum.inl s) ∧ s ≠ "" ∧ m.hasPager s = false)
        ∨ (usePagerTruthy opts.usePager = true ∧ m.pagers = [])) :
    m.frameForward contents (some opts)
      = (Except.error "A Paginator must exist before it can be assigned to a context!",
         { m with displayFrames := m.displayFrames ++ [contents] }) := by
  unfold MenuManager.frameForward
  dsimp only
  rcases h with ⟨s, hu, hs, hn⟩ | ⟨ht, hp⟩
  · rw [hu]
    have hn' : ({ m with displayFrames := m.displayFrames ++ [contents] } : MenuManager).hasPager s = false := hn
    simp [usePagerTruthy, hs, hn']
  · rw [if_pos ht]
    simp [MenuManager.hasPagers, hp]

/-- Witness for C1: the fixture menu with the unregistered id
`"missing"`. -/
theorem frameForward_bad_pager_error_keeps_pushed_frame_witness :
    exMenu.frameForward exSecondFrame (some { usePager := some (Sum.inl "missing") })
      = (Except.error "A Paginator must exist before it can be assigned to a context!",
         { exMenu with displayFrames := exMenu.displayFrames ++ [exSecondFrame] }) :=
  frameForward_bad_pager_error_keeps_pushed_frame exMenu exSecondFrame _
    (Or.inl ⟨"missing", rfl, by decide, by rfl⟩)

/-- C7: on a fresh `NumberBlockManager` with `controlId = "amount"`,
`evaluate "plus-10-amount"` then `"minus-1-amount"` yields total 9;
`"mult-10-amount"` then yields 90; `"plus-10k-amount"` adds exactly 10000
(trailing `k` parsed as a factor of 1000); `"reset-amount"` resets the
total to 0; and every id whose embedded `controlId` segment mismatches is
answered with `undefined` and leaves the state unchanged. -/
theorem numberBlock_evaluate_behaviour :
    ((nbAmount.evaluate "plus-10-amount").2.evaluate "minus-1-amount").2.activeNumberTotal = some 9
    ∧ (((nbAmount.evaluate "plus-10-amount").2.evaluate "minus-1-amount").2.evaluate
        "mult-10-amount").2.activeNumberTotal = some 90
    ∧ (∀ t : Int, ({ nbAmount with activeNumberTotal := some t } : NumberBlockManager).evaluate "plus-10k-amount"
        = (some (some (t + 10000)), { nbAmount with activeNumberTotal := some (t + 10000) }))
    ∧ (∀ t : Option Int, ({ nbAmount with activeNumberTotal := t } : NumberBlockManager).evaluate "reset-amount"
        = (some (some 0), { nbAmount with activeNumberTotal := some 0 }))
    ∧ (∀ (t : Option Int) (id : String), controlMismatch (jsSplit '-' id) "amount" →
        ({ nbAmount with activeNumberTotal := t } : NumberBlockManager).evaluate id
          = (none, { nbAmount with activeNumberTotal := t })) := by
  refine ⟨by decide, by decide, ?_, ?_, ?_⟩
  · intro t
    exact evaluate_plus10k _ t
      (by exact (by decide : nbAmount.activeBlockIds.contains "plus-10k-amount" = true))
      (by exact (by decide : nbAmount.options.controlId = "amount")) rfl
  · intro t
    exact evaluate_reset _
      (by exact (by decide : nbAmount.activeBlockIds.contains "reset-amount" = true))
      (by exact (by decide : nbAmount.options.controlId = "amount"))
  · intro t id h
    exact evaluate_controlMismatch _ id h

/-- Witness for C7: the universally quantified conjuncts evaluated at
concrete inputs (total 5 before the 10k addition; the foreign id
`"plus-10-other"`). -/
theorem numberBlock_evaluate_behaviour_witness :
    ({ nbAmount with activeNumberTotal := some 5 } : NumberBlockManager).evaluate "plus-10k-amount"
      = (some (some 10005), { nbAmount with activeNumberTotal := some 10005 })
    ∧ ({ nbAmount with activeNumberTotal := some 7 } : NumberBlockManager).evaluate "plus-10-other"
      = (none, { nbAmount with activeNumberTotal := some 7 }) := by
  refine ⟨?_, ?_⟩
  · have h := numberBlock_evaluate_behaviour.2.2.1 5
    simpa using h
  · exact numberBlock_evaluate_behaviour.2.2.2.2 (some 7) "plus-10-other" (by decide)

/-- C10: for every successfully constructed `NumberBlockManager`, the ids
of its own control row `back-<controlId>` and `confirm-<controlId>` are
answered with `undefined` and leave the state unchanged, and any id that
changes the total through `evaluate` starts with one of `minus`, `mult`,
`plus`, `reset`. -/
theorem numberBlock_control_row_inert (opts : NumberBlockOptions) (m : NumberBlockManager)
    (hm : NumberBlockManager.create opts = some m) :
    m.evaluate ("back-" ++ opts.controlId) = (none, m)
    ∧ m.evaluate ("confirm-" ++ opts.controlId) = (none, m)
    ∧ ∀ (id : String), (m.evaluate id).2.activeNumberTotal ≠ m.activeNumberTotal →
        (jsSplit '-' id).headD "" ∈ ["minus", "mult", "plus", "reset"] := by
  have hcid : m.options.controlId = opts.controlId := by
    unfold NumberBlockManager.create at hm
    rcases Option.map_eq_some'.mp hm with ⟨rows, _, hm'⟩
    rw [← hm']
  refine ⟨?_, ?_, ?_⟩
  · have h := controlMismatch_sep_word "back" opts.controlId (by decide) (by decide)
    rw [show ("back".push '-') = "back-" from rfl] at h
    exact evaluate_controlMismatch m _ (hcid ▸ h)
  · have h := controlMismatch_sep_word "confirm" opts.controlId (by decide) (by decide)
    rw [show ("confirm".push '-') = "confirm-" from rfl] at h
    exact evaluate_controlMismatch m _ (hcid ▸ h)
  · intro id hne
    unfold NumberBlockManager.evaluate at hne
    split at hne
    · simp at hne
    · dsimp only at hne
      split at hne
      · simp at hne
      · dsimp only at hne
        by_cases h3 : (jsSplit '-' id).headD "" ∈ (["minus", "mult", "plus"] : List String)
        · simp only [List.mem_cons] at h3 ⊢
          tauto
        · by_cases h4 : (jsSplit '-' id).headD "" = "reset"
          · rw [h4]; decide
          · rw [if_neg h3, if_neg h4] at hne
            simp at hne

/-- Witness for C10: the default instance, with both control-row ids
evaluated. -/
theorem numberBlock_control_row_inert_witness :
    nbAmount.evaluate "back-amount" = (none, nbAmount)
    ∧ nbAmount.evaluate "confirm-amount" = (none, nbAmount) := by
  have h := numberBlock_control_row_inert {} nbAmount (by rfl)
  exact ⟨h.1, h.2.1⟩


/-! ## Lemmas for the action-table builder -/

theorem buildActions_ok_shape (pa ia : List String) :
    ∀ (rows : List ActionRow) (acc res : ActionCollector),
      buildActions pa ia rows acc = Except.ok res →
      res.next = acc.next ++ (rows.map (rowNextIds pa ia)).flatten
      ∧ res.back = acc.back ++ (rows.map (rowBackIds pa ia)).flatten
      ∧ res.cancel = acc.cancel ++ (rows.map (rowCancelIds pa ia)).flatten := by
  intro rows
  induction rows with
  | nil =>
    intro acc res h
    simp [buildActions] at h
    subst h
    simp
  | cons r rest ih =>
    intro acc res h
    unfold buildActions at h
    cases hh : r.components.head? with
    | none => rw [hh] at h; exact absurd h (by simp)
    | some c0 =>
      rw [hh] at h
      dsimp only at h
      by_cases hs : isStrSelect c0 = true
      · rw [if_pos hs] at h
        rcases ih _ _ h with ⟨h1, h2, h3⟩
        refine ⟨?_, ?_, ?_⟩ <;> simp [h1, h2, h3, rowNextIds, rowBackIds, rowCancelIds, hh, hs]
      · rw [if_neg hs] at h
        rcases ih _ _ h with ⟨h1, h2, h3⟩
        simp only [Bool.not_eq_true] at hs
        refine ⟨?_, ?_, ?_⟩ <;> simp [h1, h2, h3, rowNextIds, rowBackIds, rowCancelIds, hh, hs]

theorem isBackAction_not_reserved (pa ia : List String) (id : String)
    (h : isBackAction pa ia id = true) : isReserved pa ia id = false := by
  unfold isBackAction at h
  cases hr : isReserved pa ia id
  · rfl
  · rw [hr] at h
    simp at h

theorem isCancelAction_not_reserved (pa ia : List String) (id : String)
    (h : isCancelAction pa ia id = true) : isReserved pa ia id = false := by
  unfold isCancelAction at h
  cases hr : isReserved pa ia id
  · rfl
  · rw [hr] at h
    simp at h

theorem isForwardAction_not_reserved (pa ia : List String) (id : String)
    (h : isForwardAction pa ia id = true) : isReserved pa ia id = false := by
  unfold isForwardAction at h
  cases hr : isReserved pa ia id
  · rfl
  · rw [hr] at h
    simp at h

theorem mem_rowBackIds (pa ia : List String) (r : ActionRow) (id : String)
    (h : id ∈ rowBackIds pa ia r) : isBackAction pa ia id = true := by
  unfold rowBackIds at h
  cases hh : r.components.head? with
  | none => rw [hh] at h; simp at h
  | some c0 =>
    rw [hh] at h
    dsimp only at h
    by_cases hs : isStrSelect c0 = true
    · rw [if_pos hs] at h; simp at h
    · rw [if_neg hs] at h
      exact (List.mem_filter.mp h).2

theorem mem_rowCancelIds (pa ia : List String) (r : ActionRow) (id : String)
    (h : id ∈ rowCancelIds pa ia r) : isCancelAction pa ia id = true := by
  unfold rowCancelIds at h
  cases hh : r.components.head? with
  | none => rw [hh] at h; simp at h
  | some c0 =>
    rw [hh] at h
    dsimp only at h
    by_cases hs : isStrSelect c0 = true
    · rw [if_pos hs] at h; simp at h
    · rw [if_neg hs] at h
      exact (List.mem_filter.mp h).2

theorem mem_rowNextIds (pa ia : List String) (r : ActionRow) (id : String)
    (h : id ∈ rowNextIds pa ia r) :
    (∃ c0, r.components.head? = some c0 ∧ isStrSelect c0 = true ∧ c0.custom_id = id)
    ∨ isForwardAction pa ia id = true := by
  unfold rowNextIds at h
  cases hh : r.components.head? with
  | none => rw [hh] at h; simp at h
  | some c0 =>
    rw [hh] at h
    dsimp only at h
    by_cases hs : isStrSelect c0 = true
    · rw [if_pos hs] at h
      rcases List.mem_singleton.mp h with rfl
      exact Or.inl ⟨c0, rfl, hs, rfl⟩
    · rw [if_neg hs] at h
      exact Or.inr (List.mem_filter.mp h).2

/-- Counterexample for C4: on a fresh menu state (whose reserved
`pagingActions` are `back-page`/`next-page`), a string-select first element
carrying the reserved id `"back-page"` is nevertheless pushed into the
`next` table. -/
theorem strSelect_reserved_id_enters_next_table :
    isReserved ({} : MenuManager).pagingActions ({} : MenuManager).ignoreActions "back-page" = true
    ∧ ((({} : MenuManager).proccessActionList [{ components := [{ ctype := .stringSelect, style := .primary, custom_id := "back-page" }] }]).toOption.map (fun mm => mm.nextFrameActions)) = some [["back-page"]] := ⟨rfl, rfl⟩

/-- C4 (amended): a successful `_proccessActionList` appends exactly one
table per kind, built row by row: a selection-style first element
contributes its id to `next` unconditionally (even a reserved id — see the
counterexample); otherwise the clickable buttons (premium/link excluded)
are filtered into `next`/`back`/`cancel` by
`isForwardAction`/`isBackAction`/`isCancelAction`; and no reserved id ever
enters the tables through the button path. -/
theorem proccessActionList_classification (m : MenuManager) (actionList : List ActionRow)
    (m' : MenuManager)
    (h : m.proccessActionList actionList = Except.ok m') :
    (m'.nextFrameActions = m.nextFrameActions
        ++ [(actionList.map (rowNextIds m.pagingActions m.ignoreActions)).flatten]
      ∧ m'.backFrameActions = m.backFrameActions
        ++ [(actionList.map (rowBackIds m.pagingActions m.ignoreActions)).flatten]
      ∧ m'.cancelFrameActions = m.cancelFrameActions
        ++ [(actionList.map (rowCancelIds m.pagingActions m.ignoreActions)).flatten])
    ∧ (∀ (r : ActionRow) (c0 : Comp), r.components.head? = some c0 →
        (isStrSelect c0 = true →
          rowNextIds m.pagingActions m.ignoreActions r = [c0.custom_id]
          ∧ rowBackIds m.pagingActions m.ignoreActions r = []
          ∧ rowCancelIds m.pagingActions m.ignoreActions r = [])
        ∧ (isStrSelect c0 = false →
          rowNextIds m.pagingActions m.ignoreActions r
            = ((r.components.filter isButton).map (fun c => c.custom_id)).filter
                (isForwardAction m.pagingActions m.ignoreActions)
          ∧ rowBackIds m.pagingActions m.ignoreActions r
            = ((r.components.filter isButton).map (fun c => c.custom_id)).filter
                (isBackAction m.pagingActions m.ignoreActions)
          ∧ rowCancelIds m.pagingActions m.ignoreActions r
            = ((r.components.filter isButton).map (fun c => c.custom_id)).filter
                (isCancelAction m.pagingActions m.ignoreActions)))
    ∧ (∀ id, isReserved m.pagingActions m.ignoreActions id = true →
        id ∉ (actionList.map (rowBackIds m.pagingActions m.ignoreActions)).flatten
        ∧ id ∉ (actionList.map (rowCancelIds m.pagingActions m.ignoreActions)).flatten
        ∧ (id ∈ (actionList.map (rowNextIds m.pagingActions m.ignoreActions)).flatten →
            ∃ r ∈ actionList, ∃ c0, r.components.head? = some c0 ∧ isStrSelect c0 = true
              ∧ c0.custom_id = id)) := by
  unfold MenuManager.proccessActionList at h
  cases hb : buildActions m.pagingActions m.ignoreActions actionList
      { next := [], back := [], cancel := [] } with
  | error e => rw [hb] at h; exact absurd h (by simp)
  | ok actions =>
    rw [hb] at h
    dsimp only at h
    injection h with h
    subst h
    rcases buildActions_ok_shape _ _ _ _ _ hb with ⟨h1, h2, h3⟩
    simp only [List.nil_append] at h1 h2 h3
    refine ⟨?_, ?_, ?_⟩
    · refine ⟨?_, ?_, ?_⟩ <;> simp [h1, h2, h3]
    · intro r c0 hh
      constructor <;> intro hs <;>
        simp [rowNextIds, rowBackIds, rowCancelIds, hh, hs]
    · intro id hres
      refine ⟨?_, ?_, ?_⟩
      · intro hmem
        rcases List.mem_flatten.mp hmem with ⟨l, hl, hidl⟩
        rcases List.mem_map.mp hl with ⟨r, _, rfl⟩
        have := isBackAction_not_reserved _ _ _ (mem_rowBackIds _ _ _ _ hidl)
        rw [this] at hres
        exact Bool.noConfusion hres
      · intro hmem
        rcases List.mem_flatten.mp hmem with ⟨l, hl, hidl⟩
        rcases List.mem_map.mp hl with ⟨r, _, rfl⟩
        have := isCancelAction_not_reserved _ _ _ (mem_rowCancelIds _ _ _ _ hidl)
        rw [this] at hres
        exact Bool.noConfusion hres
      · intro hmem
        rcases List.mem_flatten.mp hmem with ⟨l, hl, hidl⟩
        rcases List.mem_map.mp hl with ⟨r, hr, rfl⟩
        rcases mem_rowNextIds _ _ _ _ hidl with ⟨c0, hh, hs, hcid⟩ | hfwd
        · exact ⟨r, hr, c0, hh, hs, hcid⟩
        · have := isForwardAction_not_reserved _ _ _ hfwd
          rw [this] at hres
          exact Bool.noConfusion hres




/-- Witness for C4: processing the fixture back/cancel frame on a fresh
menu matches the per-row characterization, and the reserved id
`"back-page"` is absent from the built `back` table. -/
theorem proccessActionList_classification_witness :
    exProcessed.backFrameActions = ({} : MenuManager).backFrameActions
      ++ [(exSecondFrame.components.map (rowBackIds ({} : MenuManager).pagingActions ({} : MenuManager).ignoreActions)).flatten]
    ∧ "back-page" ∉ (exSecondFrame.components.map (rowBackIds ({} : MenuManager).pagingActions ({} : MenuManager).ignoreActions)).flatten := by
  have h := proccessActionList_classification ({} : MenuManager) exSecondFrame.components exProcessed (by rfl)
  exact ⟨h.1.2.1, (h.2.2 "back-page" (by decide)).1⟩

/-! ## Frame/table preservation lemmas for the menu transitions -/

theorem sameFramesTables_refl (a : MenuManager) : sameFramesTables a a :=
  ⟨rfl, rfl, rfl, rfl⟩

theorem sameFramesTables_trans {a b c : MenuManager}
    (h1 : sameFramesTables a b) (h2 : sameFramesTables b c) : sameFramesTables a c := by
  obtain ⟨x1, x2, x3, x4⟩ := h1
  obtain ⟨y1, y2, y3, y4⟩ := h2
  exact ⟨x1.trans y1, x2.trans y2, x3.trans y3, x4.trans y4⟩

theorem framePage_framesTables (m : MenuManager) :
    sameFramesTables (m.framePage).2 m := by
  unfold MenuManager.framePage
  repeat' split
  all_goals exact ⟨rfl, rfl, rfl, rfl⟩

theorem frameRefresh_framesTables (m : MenuManager) (b : Bool) :
    sameFramesTables (m.frameRefresh b).2 m := by
  unfold MenuManager.frameRefresh
  split
  · exact sameFramesTables_refl m
  · split
    · exact framePage_framesTables m
    · exact sameFramesTables_refl m

theorem injectPagingContext_framesTables (m : MenuManager) (pid : String) (pager : Paginator) :
    sameFramesTables (m.injectPagingContext pid pager).2 m := by
  unfold MenuManager.injectPagingContext
  split
  all_goals exact ⟨rfl, rfl, rfl, rfl⟩

theorem framePageChange_framesTables (m : MenuManager) (id : String) :
    sameFramesTables (m.framePageChange id).2 m := by
  unfold MenuManager.framePageChange
  split
  · exact sameFramesTables_refl m
  · dsimp only
    cases hl : lookupAssoc m.pagers ((jsSplit '-' id).getLast?.getD "0") with
    | none => exact sameFramesTables_refl m
    | some pager =>
      dsimp only
      rcases hc : pager.changePage ((jsSplit '-' id).headD "") with ⟨r, pager2⟩
      cases r with
      | error e => exact ⟨rfl, rfl, rfl, rfl⟩
      | ok v =>
        dsimp only
        exact sameFramesTables_trans (frameRefresh_framesTables _ true) ⟨rfl, rfl, rfl, rfl⟩

theorem spawnPageContainer_framesTables (m : MenuManager) (contents : PagerDataOptionBase)
    (id : String) :
    sameFramesTables (m.spawnPageContainer contents id).2 m := by
  unfold MenuManager.spawnPageContainer
  split
  · exact sameFramesTables_refl m
  · cases hc : Paginator.construct contents (spawnBasePagingRow (some { id := some id })) with
    | error e => exact sameFramesTables_refl m
    | ok pager =>
      dsimp only
      split
      · exact ⟨rfl, rfl, rfl, rfl⟩
      · rcases hg : pager.pageGet with ⟨r, pager2⟩
        cases r with
        | error e => exact ⟨rfl, rfl, rfl, rfl⟩
        | ok v => exact ⟨rfl, rfl, rfl, rfl⟩

theorem updatePageContainer_framesTables (m : MenuManager) (contents : PagerDataOptionBase)
    (id : String) :
    sameFramesTables (m.updatePageContainer contents id).2 m := by
  unfold MenuManager.updatePageContainer
  cases hl : lookupAssoc m.pagers id with
  | none => exact sameFramesTables_refl m
  | some pager =>
    dsimp only
    rcases hp : pager.loadPages contents with ⟨r, pager2⟩
    exact ⟨rfl, rfl, rfl, rfl⟩

theorem reinjectAndRefresh_framesTables (m : MenuManager) :
    sameFramesTables (m.reinjectAndRefresh).2 m := by
  unfold MenuManager.reinjectAndRefresh
  cases hctx : m.contextAt with
  | none => exact sameFramesTables_refl m
  | some ctx =>
    dsimp only
    cases hp : ctx.pager with
    | none =>
      dsimp only
      rcases hr : m.frameRefresh false with ⟨r, m1⟩
      have h1 : sameFramesTables m1 m := by
        have h := frameRefresh_framesTables m false
        rw [hr] at h
        exact h
      exact h1
    | some pid =>
      dsimp only
      cases hl : lookupAssoc m.pagers pid with
      | none => exact sameFramesTables_refl m
      | some pager =>
        dsimp only
        rcases hinj : m.injectPagingContext pid pager with ⟨r, m2⟩
        have h2 : sameFramesTables m2 m := by
          have h := injectPagingContext_framesTables m pid pager
          rw [hinj] at h
          exact h
        cases r with
        | error e => exact h2
        | ok u =>
          dsimp only
          exact sameFramesTables_trans (frameRefresh_framesTables m2 true) h2

theorem proccessActionList_ok_lengths (m : MenuManager) (l : List ActionRow) (m' : MenuManager)
    (h : m.proccessActionList l = Except.ok m') :
    m'.displayFrames = m.displayFrames
    ∧ m'.nextFrameActions.length = m.nextFrameActions.length + 1
    ∧ m'.backFrameActions.length = m.backFrameActions.length + 1
    ∧ m'.cancelFrameActions.length = m.cancelFrameActions.length + 1 := by
  unfold MenuManager.proccessActionList at h
  cases hb : buildActions m.pagingActions m.ignoreActions l { next := [], back := [], cancel := [] } with
  | error e => rw [hb] at h; exact absurd h (by simp)
  | ok actions =>
    rw [hb] at h
    dsimp only at h
    injection h with h
    subst h
    simp

theorem frameForward_ok_lengths (m : MenuManager) (c : MenuDataContentBase)
    (o : Option FrameForwardOptions) (d : FrameDisplay) (m' : MenuManager)
    (h : m.frameForward c o = (Except.ok d, m')) :
    m'.displayFrames.length = m.displayFrames.length + 1
    ∧ m'.nextFrameActions.length = m.nextFrameActions.length + 1
    ∧ m'.backFrameActions.length = m.backFrameActions.length + 1
    ∧ m'.cancelFrameActions.length = m.cancelFrameActions.length + 1 := by
  unfold MenuManager.frameForward at h
  dsimp only at h
  cases o with
  | none =>
    dsimp only at h
    cases hp : ({ m with displayFrames := m.displayFrames ++ [c] } : MenuManager).proccessActionList c.components with
    | error e =>
      rw [hp] at h
      simp [Prod.ext_iff] at h
    | ok m2 =>
      rw [hp] at h
      dsimp only at h
      have hm' : m' = (({ m2 with activeContext := assocSet m2.activeContext (m2.position - 1) { display := some c } } : MenuManager).frameRefresh false).2 :=
        (congrArg Prod.snd h).symm
      have href := frameRefresh_framesTables ({ m2 with activeContext := assocSet m2.activeContext (m2.position - 1) { display := some c } } : MenuManager) false
      rcases proccessActionList_ok_lengths _ _ _ hp with ⟨q1, q2, q3, q4⟩
      rcases href with ⟨r1, r2, r3, r4⟩
      rw [hm']
      refine ⟨?_, ?_, ?_, ?_⟩
      · rw [r1]; simp [q1]
      · rw [r2]; simp [q2]
      · rw [r3]; simp [q3]
      · rw [r4]; simp [q4]
  | some opts =>
    dsimp only at h
    by_cases ht : usePagerTruthy opts.usePager = true
    · rw [if_pos ht] at h
      split at h
      · simp [Prod.ext_iff] at h
      · split at h
        · simp [Prod.ext_iff] at h
        · rename_i contextPager hlk
          split at h
          · rename_i e m2 hinj
            simp [Prod.ext_iff] at h
          · rename_i u m2 hinj
            cases hp : m2.proccessActionList (c.components ++ [contextPager.controlRow]) with
            | error e =>
              rw [hp] at h
              simp [Prod.ext_iff] at h
            | ok m3 =>
              rw [hp] at h
              dsimp only at h
              obtain ⟨X, hm', x1, x2, x3, x4⟩ :
                  ∃ X : MenuManager, m' = (X.frameRefresh true).2
                  ∧ X.displayFrames = m3.displayFrames
                  ∧ X.nextFrameActions = m3.nextFrameActions
                  ∧ X.backFrameActions = m3.backFrameActions
                  ∧ X.cancelFrameActions = m3.cancelFrameActions :=
                ⟨_, (congrArg Prod.snd h).symm, rfl, rfl, rfl, rfl⟩
              rcases frameRefresh_framesTables X true with ⟨r1, r2, r3, r4⟩
              rcases proccessActionList_ok_lengths _ _ _ hp with ⟨q1, q2, q3, q4⟩
              have hi := injectPagingContext_framesTables
                ({ m with displayFrames := m.displayFrames ++ [c] } : MenuManager)
                (if (match opts.usePager with | some (Sum.inl _) => true | _ => false) = true then
                  (match opts.usePager with | some (Sum.inl s) => s | _ => "0") else "0")
                contextPager
              rw [hinj] at hi
              dsimp only at hi
              rcases hi with ⟨i1, i2, i3, i4⟩
              rw [hm']
              refine ⟨?_, ?_, ?_, ?_⟩
              all_goals simp only [r1, r2, r3, r4, x1, x2, x3, x4, q1, q2, q3, q4, i1, i2, i3, i4]
              all_goals simp
    · rw [if_neg ht] at h
      cases hp : ({ m with displayFrames := m.displayFrames ++ [c] } : MenuManager).proccessActionList c.components with
      | error e =>
        rw [hp] at h
        simp [Prod.ext_iff] at h
      | ok m2 =>
        rw [hp] at h
        dsimp only at h
        obtain ⟨X, hm', x1, x2, x3, x4⟩ :
            ∃ X : MenuManager, m' = (X.frameRefresh false).2
            ∧ X.displayFrames = m2.displayFrames
            ∧ X.nextFrameActions = m2.nextFrameActions
            ∧ X.backFrameActions = m2.backFrameActions
            ∧ X.cancelFrameActions = m2.cancelFrameActions :=
          ⟨_, (congrArg Prod.snd h).symm, rfl, rfl, rfl, rfl⟩
        rcases frameRefresh_framesTables X false with ⟨r1, r2, r3, r4⟩
        rcases proccessActionList_ok_lengths _ _ _ hp with ⟨q1, q2, q3, q4⟩
        rw [hm']
        refine ⟨?_, ?_, ?_, ?_⟩
        all_goals simp only [r1, r2, r3, r4, x1, x2, x3, x4, q1, q2, q3, q4]
        all_goals simp

theorem frameBackward_ok_lengths (m : MenuManager) (d : Option FrameDisplay) (m' : MenuManager)
    (h : m.frameBackward = (Except.ok d, m')) :
    m' = m
    ∨ (m.displayFrames.length ≠ 1
      ∧ m'.displayFrames.length = m.displayFrames.length - 1
      ∧ m'.nextFrameActions.length = m.nextFrameActions.length - 1
      ∧ m'.backFrameActions.length = m.backFrameActions.length - 1
      ∧ m'.cancelFrameActions.length = m.cancelFrameActions.length - 1) := by
  unfold MenuManager.frameBackward at h
  by_cases hl : m.displayFrames.length = 1
  · rw [if_pos hl] at h
    exact Or.inl (congrArg Prod.snd h).symm
  · rw [if_neg hl] at h
    obtain ⟨X, hm', x1, x2, x3, x4⟩ :
        ∃ X : MenuManager, m' = (X.reinjectAndRefresh).2
        ∧ X.displayFrames = m.displayFrames.dropLast
        ∧ X.nextFrameActions = m.nextFrameActions.dropLast
        ∧ X.backFrameActions = m.backFrameActions.dropLast
        ∧ X.cancelFrameActions = m.cancelFrameActions.dropLast :=
      ⟨_, (congrArg Prod.snd h).symm, rfl, rfl, rfl, rfl⟩
    rcases reinjectAndRefresh_framesTables X with ⟨r1, r2, r3, r4⟩
    refine Or.inr ⟨hl, ?_, ?_, ?_, ?_⟩ <;>
      rw [hm'] <;> simp [r1, r2, r3, r4, x1, x2, x3, x4]

theorem frameRestart_ok_lengths (m : MenuManager) (d : Option FrameDisplay) (m' : MenuManager)
    (h : m.frameRestart = (Except.ok d, m')) :
    m'.displayFrames.length = min 1 m.displayFrames.length
    ∧ m'.nextFrameActions.length = min 1 m.nextFrameActions.length
    ∧ m'.backFrameActions.length = min 1 m.backFrameActions.length
    ∧ m'.cancelFrameActions.length = min 1 m.cancelFrameActions.length := by
  unfold MenuManager.frameRestart at h
  obtain ⟨X, hm', x1, x2, x3, x4⟩ :
      ∃ X : MenuManager, m' = (X.reinjectAndRefresh).2
      ∧ X.displayFrames = m.displayFrames.take 1
      ∧ X.nextFrameActions = m.nextFrameActions.take 1
      ∧ X.backFrameActions = m.backFrameActions.take 1
      ∧ X.cancelFrameActions = m.cancelFrameActions.take 1 :=
    ⟨_, (congrArg Prod.snd h).symm, rfl, rfl, rfl, rfl⟩
  rcases reinjectAndRefresh_framesTables X with ⟨r1, r2, r3, r4⟩
  refine ⟨?_, ?_, ?_, ?_⟩ <;>
    rw [hm'] <;> simp [r1, r2, r3, r4, x1, x2, x3, x4]

theorem create_ok_aligned (contents : MenuDataContentBase) (m : MenuManager)
    (h : MenuManager.create contents = Except.ok m) :
    m.displayFrames ≠ [] ∧ tablesAligned m := by
  unfold MenuManager.create at h
  dsimp only at h
  cases hp : (({} : MenuManager)).proccessActionList contents.components with
  | error e => rw [hp] at h; exact absurd h (by simp)
  | ok m1 =>
    rw [hp] at h
    dsimp only at h
    injection h with h
    subst h
    rcases proccessActionList_ok_lengths _ _ _ hp with ⟨q1, q2, q3, q4⟩
    constructor
    · simp
    · refine ⟨?_, ?_, ?_⟩ <;> simp [tablesAligned, q1, q2, q3, q4]

theorem sameFramesTables_menuAligned {a b : MenuManager} (hs : sameFramesTables a b)
    (h : b.displayFrames ≠ [] ∧ tablesAligned b) : a.displayFrames ≠ [] ∧ tablesAligned a := by
  rcases hs with ⟨s1, s2, s3, s4⟩
  rcases h with ⟨hne, a1, a2, a3⟩
  exact ⟨s1 ▸ hne, by simp only [tablesAligned] at *; rw [s1, s2, s3, s4]; exact ⟨a1, a2, a3⟩⟩

/-- Counterexample for C2: the state reached by a failed `frameForward`
(missing pager id) on the fixture menu has two frames but only one table
per kind — the three arrays are no longer index-aligned with the stack. -/
theorem failed_frameForward_breaks_alignment :
    (exMenu.frameForward exSecondFrame (some { usePager := some (Sum.inl "missing") })).2.displayFrames.length = 2
    ∧ (exMenu.frameForward exSecondFrame (some { usePager := some (Sum.inl "missing") })).2.nextFrameActions.length = 1 := ⟨rfl, rfl⟩

/-- C2 (amended): in every menu state reachable from the constructor
through *successful* operations, the three per-position action tables are
index-aligned 1:1 with the frame stack — each successful push appends
exactly one entry per table and each pop removes exactly one. A
`frameForward` that fails its pager validation breaks the alignment (see
the counterexample). -/
theorem reachable_menu_tables_aligned (m : MenuManager) (h : ReachableMenu m) :
    tablesAligned m := by
  suffices hs : m.displayFrames ≠ [] ∧ tablesAligned m from hs.2
  induction h with
  | created contents m0 hc => exact create_ok_aligned _ _ hc
  | forwarded m0 c o d m' hr hstep ih =>
    rcases frameForward_ok_lengths _ _ _ _ _ hstep with ⟨l1, l2, l3, l4⟩
    rcases ih with ⟨hne, a1, a2, a3⟩
    have hpos : 0 < m'.displayFrames.length := by omega
    refine ⟨List.length_pos.mp hpos, ?_, ?_, ?_⟩ <;>
      simp only [tablesAligned] at * <;> omega
  | movedBack m0 d m' hr hstep ih =>
    rcases frameBackward_ok_lengths _ _ _ hstep with rfl | ⟨hne1, l1, l2, l3, l4⟩
    · exact ih
    · rcases ih with ⟨hne, a1, a2, a3⟩
      simp only [tablesAligned] at *
      have hlen : 0 < m0.displayFrames.length := List.length_pos.mpr hne
      have hpos : 0 < m'.displayFrames.length := by omega
      exact ⟨List.length_pos.mp hpos, by omega, by omega, by omega⟩
  | restarted m0 d m' hr hstep ih =>
    rcases frameRestart_ok_lengths _ _ _ hstep with ⟨l1, l2, l3, l4⟩
    rcases ih with ⟨hne, a1, a2, a3⟩
    simp only [tablesAligned] at *
    have hlen : 0 < m0.displayFrames.length := List.length_pos.mpr hne
    have hpos : 0 < m'.displayFrames.length := by omega
    exact ⟨List.length_pos.mp hpos, by omega, by omega, by omega⟩
  | refreshed m0 paging d m' hr hstep ih =>
    have hs := frameRefresh_framesTables m0 paging
    rw [hstep] at hs
    exact sameFramesTables_menuAligned hs ih
  | pageChanged m0 id d m' hr hstep ih =>
    have hs := framePageChange_framesTables m0 id
    rw [hstep] at hs
    exact sameFramesTables_menuAligned hs ih
  | pagerSpawned m0 contents id m' hr hstep ih =>
    have hs := spawnPageContainer_framesTables m0 contents id
    rw [hstep] at hs
    exact sameFramesTables_menuAligned hs ih
  | pagerUpdated m0 contents id m' hr hstep ih =>
    have hs := updatePageContainer_framesTables m0 contents id
    rw [hstep] at hs
    exact sameFramesTables_menuAligned hs ih

/-- Witness for C2: the freshly constructed fixture menu is reachable and
aligned. -/
theorem reachable_menu_tables_aligned_witness : tablesAligned exMenu :=
  reachable_menu_tables_aligned exMenu (ReachableMenu.created exRootContents exMenu (by rfl))

end Wards
